import Mathlib

/-!
Verification of the WinRT WebSocket session adapter
(`Source/WebSocket/WinRT/winrt_websocket.cpp`).

The development shallowly embeds the connect / send / receive / disconnect
paths of the adapter.  Machine integers (HRESULTs) are modelled as `Nat`
values below `2^32`, with `FAILED` testing the sign bit.  The asynchronous
send pipeline is modelled as a state machine: application `send` calls and
transport flush completions are events, each executed atomically in the
order an interleaving scheduler chooses to run them.
-/

/-- HRESULT success code `S_OK` (0). -/
def S_OK : Nat := 0

/-- HRESULT `E_FAIL` (0x80004005). -/
def E_FAIL : Nat := 0x80004005

/-- HRESULT `E_INVALIDARG` (0x80070057). -/
def E_INVALIDARG : Nat := 0x80070057

/-- HRESULT `E_UNEXPECTED` (0x8000FFFF). -/
def E_UNEXPECTED : Nat := 0x8000FFFF

/-- HRESULT `E_PENDING` (0x8000000A), returned by DoWork routines that have
    started asynchronous work. -/
def E_PENDING : Nat := 0x8000000A

/-- Modelled from the spec: the not-ready error (`E_HC_NOT_INITIALISED`,
    "NotReadyError: core infrastructure not initialized").  The constant's
    definition lives in the library's public header, which is not under
    `src/`; only its name appears in the source.  Its exact numeric value is
    irrelevant to the claims beyond being a failing HRESULT distinct from
    `E_INVALIDARG`, which the spec's error taxonomy requires (ArgumentError
    and NotReadyError are distinct classes). -/
def E_HC_NOT_INITIALISED : Nat := 0x89231006

/-- The Win32 `FAILED` macro: an HRESULT indicates failure exactly when its
    sign bit (bit 31) is set. -/
def FAILED (hr : Nat) : Bool := decide (2147483648 ≤ hr)

/-! ## Sub-protocol parsing (`parse_subprotocols`, lines 120-136)

The source tokenizes the UTF-16 copy of the sub-protocol string with
`std::getline(header, token, L',')`, trims each token and keeps the
non-empty ones.  We model strings as `List Char` (the UTF-8/UTF-16
conversion is a pure re-encoding and is not modelled). -/

/-- Whitespace recognised by the trimming helper: the characters accepted by
    `iswspace` in the default locale. -/
def isWhitespaceChar (c : Char) : Bool :=
  c = ' ' || c = '\t' || c = '\n' || c = '\r' || c = '\x0b' || c = '\x0c'

/-- Modelled from the spec: `trim_whitespace` ("trimming surrounding
    whitespace from each entry").  The helper's body is a string utility of
    the repository that is not under `src/`; only its call site is.  It
    removes leading and trailing whitespace characters. -/
def trim_whitespace (cs : List Char) : List Char :=
  ((cs.dropWhile isWhitespaceChar).reverse.dropWhile isWhitespaceChar).reverse

/-- Tokenization performed by the source's `while (std::getline(header,
    token, L','))` loop: a `getline` call consumes characters up to and
    including the next comma and yields them as one token; a call that finds
    the stream already at end-of-input fails without yielding a token, which
    ends the loop.  Consequently an empty input yields no token at all and a
    trailing comma does not yield a trailing empty token. -/
def getlineTokens : List Char → List (List Char)
  | [] => []
  | c :: cs =>
    if c = ',' then [] :: getlineTokens cs
    else
      match getlineTokens cs with
      | [] => [[c]]
      | t :: ts => (c :: t) :: ts

/-- Modelled from the spec: plain splitting of a string at every comma
    ("splits it on commas"), used to state the spec-level description of the
    parser.  Unlike `getlineTokens` it yields an (empty) token after a
    trailing comma and one empty token for the empty input. -/
def splitComma : List Char → List (List Char)
  | [] => [[]]
  | c :: cs =>
    if c = ',' then [] :: splitComma cs
    else
      match splitComma cs with
      | [] => [[c]]
      | t :: ts => (c :: t) :: ts

/-- `parse_subprotocols` (lines 120-136): tokenize on commas with `getline`,
    trim each token, keep the non-empty ones in order. -/
def parse_subprotocols (subProtocol : List Char) : List (List Char) :=
  ((getlineTokens subProtocol).map trim_whitespace).filter (fun t => !t.isEmpty)

/-- Modelled from the spec: "splits it on commas, trims surrounding
    whitespace from each entry, discards entries that become empty". -/
def spec_parse_subprotocols (subProtocol : List Char) : List (List Char) :=
  ((splitComma subProtocol).map trim_whitespace).filter (fun t => !t.isEmpty)

/-- The registration loop of `WebsocketConnectDoWork` (lines 169-174): each
    parsed protocol is appended to the transport's `SupportedProtocols` list
    in loop order. -/
def supportedProtocolAppends (subProtocol : List Char) : List (List Char) :=
  (parse_subprotocols subProtocol).foldl (fun acc v => acc ++ [v]) []

/-! ### Helper lemmas for the parser -/

theorem splitComma_ne_nil (cs : List Char) : splitComma cs ≠ [] := by
  cases cs with
  | nil => simp [splitComma]
  | cons c cs =>
    simp only [splitComma]
    by_cases hc : c = ','
    · simp [hc]
    · simp only [if_neg hc]
      cases splitComma cs <;> simp

theorem splitComma_getlineTokens (cs : List Char) :
    splitComma cs = getlineTokens cs ∨ splitComma cs = getlineTokens cs ++ [[]] := by
  induction cs with
  | nil => right; rfl
  | cons c cs ih =>
    by_cases hc : c = ','
    · rcases ih with ih | ih
      · left
        simp only [splitComma, getlineTokens, if_pos hc, ih]
      · right
        simp only [splitComma, getlineTokens, if_pos hc, ih, List.cons_append]
    · cases hg : getlineTokens cs with
      | nil =>
        rcases ih with ih | ih
        · exact absurd (ih.trans hg) (splitComma_ne_nil cs)
        · left
          rw [hg, List.nil_append] at ih
          simp only [splitComma, getlineTokens, if_neg hc, ih, hg]
      | cons t ts =>
        rcases ih with ih | ih
        · left
          simp only [splitComma, getlineTokens, if_neg hc, ih, hg]
        · right
          rw [hg, List.cons_append] at ih
          simp only [splitComma, getlineTokens, if_neg hc, ih, hg, List.cons_append]

theorem trim_whitespace_nil : trim_whitespace [] = [] := rfl

theorem parse_subprotocols_eq_spec (cs : List Char) :
    parse_subprotocols cs = spec_parse_subprotocols cs := by
  unfold parse_subprotocols spec_parse_subprotocols
  rcases splitComma_getlineTokens cs with h | h
  · rw [h]
  · rw [h, List.map_append, List.filter_append]
    simp [trim_whitespace_nil]

theorem foldl_append_eq {α : Type} (l acc : List α) :
    l.foldl (fun a x => a ++ [x]) acc = acc ++ l := by
  induction l generalizing acc with
  | nil => simp
  | cons x t ih => simp [ih, List.append_assoc]

theorem foldl_append_if_filter {α : Type} (p : α → Bool) (l acc : List α) :
    l.foldl (fun a x => if p x then a ++ [x] else a) acc = acc ++ l.filter p := by
  induction l generalizing acc with
  | nil => simp
  | cons x t ih =>
    by_cases hp : p x <;> simp [hp, ih, List.filter_cons, List.append_assoc]

/-! ## Header filtering in `WebsocketConnectDoWork` (lines 150-167)

The connect work routine walks the session's header list and calls
`SetRequestHeader(name, value)` on the transport for every header whose
name differs (case-insensitively, `_stricmp`) from the reserved
`Sec-WebSocket-Protocol` header; the reserved header is skipped because the
`MessageWebSocket` API throws when it is set as a plain header.  Headers
are stored by the session as strings, so the source's defensive null
checks on name/value are vacuous and not modelled. -/

structure HttpHeader where
  name : List Char
  value : List Char
deriving DecidableEq

/-- `str_icmp` (lines 111-118): case-insensitive string equality
    (`_stricmp(left, right) == 0`). -/
def str_icmp (left right : List Char) : Bool :=
  left.map Char.toLower == right.map Char.toLower

/-- The reserved sub-protocol header name (line 153). -/
def secWebSocketProtocolHeader : List Char := "Sec-WebSocket-Protocol".toList

/-- The `SetRequestHeader` calls issued by the header loop of
    `WebsocketConnectDoWork` (lines 154-167), in loop order. -/
def connectSetRequestHeaderCalls (headers : List HttpHeader) : List HttpHeader :=
  headers.foldl
    (fun acc h =>
      if !(str_icmp h.name secWebSocketProtocolHeader) then acc ++ [h] else acc)
    []

/-! ## Completion results (`WebsocketConnectGetResult`, lines 239-251, and
`WebsockSendMessageGetResult`, lines 410-442)

Both result-retrieval routines build a `WebSocketCompletionResult` from the
session reference and the HRESULT stored by the corresponding completion
callback: the generic `errorCode` is `E_FAIL` when the stored platform code
is a failure and `S_OK` otherwise, and the platform code is copied
verbatim.  Session references are modelled by their opaque numeric id.
The send-side routine's guard clauses (null context, undersized buffer)
return `E_INVALIDARG` without producing a result and are not part of the
result shape modelled here. -/

structure WebSocketCompletionResult where
  websocket : Nat
  errorCode : Nat
  platformErrorCode : Nat
deriving DecidableEq

/-- `WebsocketConnectGetResult` (lines 244-247): result built from the
    stored `m_connectAsyncOpResult`. -/
def WebsocketConnectGetResult (websocket connectAsyncOpResult : Nat) :
    WebSocketCompletionResult :=
  { websocket := websocket
    errorCode := if FAILED connectAsyncOpResult then E_FAIL else S_OK
    platformErrorCode := connectAsyncOpResult }

/-- `WebsockSendMessageGetResult` (lines 435-438): result built from the
    record's stored `m_storeAsyncResult`. -/
def WebsockSendMessageGetResult (websocket storeAsyncResult : Nat) :
    WebSocketCompletionResult :=
  { websocket := websocket
    errorCode := if FAILED storeAsyncResult then E_FAIL else S_OK
    platformErrorCode := storeAsyncResult }

/-! ## Connect completion handler (lines 191-227)

The `ConnectAsync` completion lambda first constructs a `DataWriter` over
the transport's output stream, then stores `E_FAIL` if the transport
reported `AsyncStatus::Error` and `S_OK` otherwise.  A `hresult_error`
thrown while acquiring the writer is caught and its code stored; any other
exception is caught and `E_FAIL` stored.  The handler then always calls
`CompleteAsync` — being a total function here reflects that no exception
propagates out of the callback. -/

inductive AsyncStatus
  | started
  | completed
  | canceled
  | error
deriving DecidableEq

/-- Outcome of constructing `DataWriter(OutputStream())`: success, a thrown
    `winrt::hresult_error` carrying a failing HRESULT, or any other thrown
    exception. -/
inductive WriterAcq
  | ok
  | hresultError (code : Nat)
  | otherError
deriving DecidableEq

/-- The HRESULT stored in `m_connectAsyncOpResult` by the connect completion
    handler (lines 197-216). -/
def connectCompletedHandler (status : AsyncStatus) (acq : WriterAcq) : Nat :=
  match acq with
  | WriterAcq.ok => if status = AsyncStatus.error then E_FAIL else S_OK
  | WriterAcq.hresultError code => code
  | WriterAcq.otherError => E_FAIL

/-! ## Receive path (`ReceiveContext::OnReceive`, lines 73-97)

The message-received handler reads the number of available bytes; when it
is positive it copies them into one contiguous buffer and invokes the
registered message callback once with that payload.  Zero available bytes
invoke nothing, and any exception thrown while reading is swallowed by the
`catch (...)` block, so no callback fires for that event.  The result
models the callback invocation: `some payload` for exactly one invocation
with that payload, `none` for no invocation. -/

inductive ReceiveEvent
  | failure
  | available (bytes : List Nat)
deriving DecidableEq

/-- `ReceiveContext::OnReceive`: `failure` stands for an exception thrown
    anywhere while obtaining the reader or reading bytes;
    `messageFuncRegistered` models whether `HCWebSocketGetFunctions`
    returned a non-null message callback. -/
def ReceiveContext_OnReceive (ev : ReceiveEvent) (messageFuncRegistered : Bool) :
    Option (List Nat) :=
  match ev with
  | ReceiveEvent.failure => none
  | ReceiveEvent.available bytes =>
    if 0 < bytes.length then
      if messageFuncRegistered then some bytes else none
    else none

/-! ## Disconnect (`Internal_HCWebSocketDisconnect`, lines 493-512)

A null websocket handle yields `E_INVALIDARG`.  When the handle's `impl`
is missing (or is not the WinRT implementation) or the underlying
`MessageWebSocket` is null, the routine returns `E_UNEXPECTED` without
touching the transport.  Otherwise it calls
`Close(static_cast<unsigned short>(closeStatus), L"")` — note the
truncation to 16 bits — and returns `S_OK`.  The second component of the
result records the `Close` call's status-code argument, when one is made. -/

structure DisconnectTarget where
  implValid : Bool
  transportPresent : Bool
deriving DecidableEq

/-- `Internal_HCWebSocketDisconnect`: returns the HRESULT and the status
    code passed to `MessageWebSocket::Close`, if the close was requested. -/
def Internal_HCWebSocketDisconnect (websocket : Option DisconnectTarget)
    (closeStatus : Nat) : Nat × Option Nat :=
  match websocket with
  | none => (E_INVALIDARG, none)
  | some t =>
    if !t.implValid || !t.transportPresent then (E_UNEXPECTED, none)
    else (S_OK, some (closeStatus % 65536))

/-! ## Outgoing send pipeline

State machine for `Internal_HCWebSocketSendMessageAsync` (lines 291-336),
`MessageWebSocketSendMessage` (lines 444-490) and the `StoreAsync`
completion handler inside `WebsockSendMessageDoWork` (lines 373-398).

A `ProcessState` holds the process-wide singleton's `m_lastId` counter, the
initialization flag (`get_http_singleton` returning non-null), and the
per-session queues.  Events are executed atomically and in the order chosen
by an interleaving scheduler:

* `send idx m` — an application thread runs
  `Internal_HCWebSocketSendMessageAsync` to completion, including, when the
  pre-append check saw an empty queue, the synchronous
  `MessageWebSocketSendMessage` pump with its scheduled `DoWork` performing
  `WriteBytes`/`StoreAsync`.  Running the scheduled `DoWork` immediately is
  one legal schedule (`ScheduleAsync(asyncBlock, 0)`); a record that has
  had `StoreAsync` called and whose completion handler has not yet fired is
  in the `inFlight` list — the "submitted to transport, awaiting flush
  completion" sub-state.
* `flushComplete idx msgId result` — the transport fires the `StoreAsync`
  completion handler of the in-flight record `msgId` with final stored
  HRESULT `result` (the `GetResults` value, a caught `hresult_error` code,
  or `E_FAIL`); the handler records the result, calls `CompleteAsync`
  (delivering the completion to the producer — appended to `completed`),
  and re-enters `MessageWebSocketSendMessage`.  The event is a no-op unless
  such an in-flight record exists, so only legal firings change the state.

The source gives no behavior for an invalid session handle (the
`dynamic_pointer_cast` result is dereferenced unchecked), so events naming
a session index out of range are modelled as rejected no-ops; every
theorem below concerns valid indices. -/

/-- `websocket_outgoing_message` (lines 18-27): payload and assigned id.
    The async block is identified with the id; the store operation handle
    and observed status live in the state lists and `completed` entries. -/
structure OutgoingMessage where
  message : List Char
  id : Nat
deriving DecidableEq

/-- Per-session pipeline state: `queue` is `m_outgoingMessageQueue`,
    `inFlight` the records with a pending `StoreAsync`, `completed` the
    `(id, m_storeAsyncResult)` pairs in `CompleteAsync` (delivery) order. -/
structure SessionState where
  queue : List OutgoingMessage
  inFlight : List OutgoingMessage
  completed : List (Nat × Nat)
deriving DecidableEq

/-- Process-wide state: the http singleton (initialization flag and shared
    `m_lastId` counter) plus every session's pipeline. -/
structure ProcessState where
  initialized : Bool
  lastId : Nat
  sessions : List SessionState
deriving DecidableEq

/-- `MessageWebSocketSendMessage` (lines 444-490): under the queue lock pop
    the front record if any, then submit it (`BeginAsync`/`ScheduleAsync`
    leading to `WriteBytes`/`StoreAsync` in `WebsockSendMessageDoWork`) —
    the record becomes in-flight.  An empty queue is a no-op. -/
def MessageWebSocketSendMessage (s : SessionState) : SessionState :=
  match s.queue with
  | [] => s
  | msg :: rest =>
    { s with queue := rest, inFlight := s.inFlight ++ [msg] }

/-- `Internal_HCWebSocketSendMessageAsync` (lines 291-336), returning the
    new process state and the HRESULT given to the caller.  Order of the
    guards mirrors the source: null message (line 297), singleton check
    (lines 302-304), record allocation with `++httpSingleton->m_lastId`
    (lines 307-310), zero-length check (line 312), then under the lock the
    pre-append emptiness check and the push (lines 317-327), and the
    synchronous pump when no send appeared to be in progress (line 332). -/
def Internal_HCWebSocketSendMessageAsync (st : ProcessState) (idx : Nat)
    (message : Option (List Char)) : ProcessState × Nat :=
  match message with
  | none => (st, E_INVALIDARG)
  | some m =>
    if st.initialized = false then (st, E_HC_NOT_INITIALISED)
    else
      match st.sessions[idx]? with
      | none => (st, E_INVALIDARG)
      | some sess =>
        let newId := st.lastId + 1
        let msg : OutgoingMessage := { message := m, id := newId }
        let st1 : ProcessState := { st with lastId := newId }
        if m.length = 0 then (st1, E_INVALIDARG)
        else
          let sendInProgress : Bool := decide (0 < sess.queue.length)
          let sess1 : SessionState := { sess with queue := sess.queue ++ [msg] }
          let sess2 : SessionState :=
            if sendInProgress then sess1 else MessageWebSocketSendMessage sess1
          ({ st1 with sessions := st1.sessions.set idx sess2 }, S_OK)

/-- The `StoreAsync` completion handler registered in
    `WebsockSendMessageDoWork` (lines 373-398): for the in-flight record
    `msgId` it stores `result` in `m_storeAsyncResult`, calls
    `CompleteAsync` — delivering the completion to the producer — and then
    re-invokes `MessageWebSocketSendMessage` to advance the queue.  When no
    such record is in flight the event cannot fire and the state is
    unchanged. -/
def storeAsyncCompletedHandler (st : ProcessState) (idx msgId result : Nat) :
    ProcessState :=
  match st.sessions[idx]? with
  | none => st
  | some sess =>
    match sess.inFlight.find? (fun msg => msg.id == msgId) with
    | none => st
    | some _ =>
      let sess1 : SessionState :=
        { sess with
          inFlight := sess.inFlight.eraseP (fun msg => msg.id == msgId)
          completed := sess.completed ++ [(msgId, result)] }
      { st with sessions := st.sessions.set idx (MessageWebSocketSendMessage sess1) }

/-- An event of the pipeline: an application `SendMessage` call, or the
    transport firing a flush completion. -/
inductive WsEvent
  | send (idx : Nat) (message : Option (List Char))
  | flushComplete (idx msgId result : Nat)

/-- One atomic event execution. -/
def stepEvent (st : ProcessState) : WsEvent → ProcessState
  | WsEvent.send idx m => (Internal_HCWebSocketSendMessageAsync st idx m).1
  | WsEvent.flushComplete idx msgId r => storeAsyncCompletedHandler st idx msgId r

/-- Execution of a sequence of events. -/
def runEvents (st : ProcessState) (evs : List WsEvent) : ProcessState :=
  evs.foldl stepEvent st

/-- Freshly initialized process with one connected session and an empty
    pipeline. -/
def initialProcessState : ProcessState :=
  { initialized := true, lastId := 0, sessions := [⟨[], [], []⟩] }

/-! ## Claim theorems -/

/-- C1.  The single-flight claim fails on the code: because
    `MessageWebSocketSendMessage` pops the record from the queue before
    submitting it, the `sendInProgress` pre-append check (queue non-empty)
    can never observe the record that is currently awaiting its flush
    completion.  Three back-to-back `SendMessage` calls with payloads
    "A","B","C" and no intervening completions leave all three records
    (ids 1, 2, 3) simultaneously in the submitted-awaiting-flush sub-state
    and zero records queued — not one submission and two queued records as
    the claim states. -/
theorem burst_send_violates_single_flight :
    ((runEvents initialProcessState
        [WsEvent.send 0 (some ['A']), WsEvent.send 0 (some ['B']),
         WsEvent.send 0 (some ['C'])]).sessions[0]?).map
      (fun s => (s.inFlight.map OutgoingMessage.id, s.queue.length))
      = some ([1, 2, 3], 0) := by
  decide

/-- C2.  The FIFO-completion claim fails on the code: records are indeed
    appended in call order and popped from the front, but the next pop is
    initiated by the next `SendMessage` call itself (the previous record
    was already popped before submission), so two sends issued
    back-to-back are both in flight at once and the transport may complete
    the second flush first.  In the trace below, sends are issued in id
    order 1, 2, the transport completes flush 2 before flush 1 (both legal
    firings — each handler found its record in flight, as witnessed by the
    `completed` entries), and the completions are delivered to the
    producers in order 2, 1 — not in issue order. -/
theorem send_completion_order_violation :
    ((runEvents initialProcessState
        [WsEvent.send 0 (some ['A']), WsEvent.send 0 (some ['B']),
         WsEvent.flushComplete 0 2 S_OK, WsEvent.flushComplete 0 1 S_OK]
      ).sessions[0]?).map (fun s => s.completed)
      = some [(2, S_OK), (1, S_OK)] := by
  decide

/-! ### Send-guard helpers -/

theorem sendMessage_lastId_increment (st : ProcessState) (idx : Nat)
    (m : List Char) (sess : SessionState)
    (hinit : st.initialized = true) (hgs : st.sessions[idx]? = some sess) :
    (Internal_HCWebSocketSendMessageAsync st idx (some m)).1.lastId
      = st.lastId + 1 := by
  by_cases hm : m.length = 0 <;>
    simp [Internal_HCWebSocketSendMessageAsync, hinit, hgs, hm]

theorem sendMessage_empty_state (st : ProcessState) (idx : Nat)
    (sess : SessionState)
    (hinit : st.initialized = true) (hgs : st.sessions[idx]? = some sess) :
    (Internal_HCWebSocketSendMessageAsync st idx (some [])).1
        = { st with lastId := st.lastId + 1 } ∧
      (Internal_HCWebSocketSendMessageAsync st idx (some [])).2 = E_INVALIDARG := by
  simp [Internal_HCWebSocketSendMessageAsync, hinit, hgs]

/-- C3 counterexample.  The claim "for every SendMessage call whose message
    pointer is null or whose payload has length zero, the call returns an
    invalid-argument error" is false as stated: the singleton (not-ready)
    check at lines 302-304 runs before the zero-length check at line 312,
    so when the library is not initialized a zero-length (non-null) message
    is rejected with `E_HC_NOT_INITIALISED`, not `E_INVALIDARG`. -/
theorem sendMessage_empty_uninitialized_counterexample :
    (Internal_HCWebSocketSendMessageAsync ⟨false, 0, [⟨[], [], []⟩]⟩ 0
        (some [])).2 = E_HC_NOT_INITIALISED ∧
      E_HC_NOT_INITIALISED ≠ E_INVALIDARG := by
  decide

/-- C3 (amended).  A null message always returns `E_INVALIDARG` — in every
    state, initialized or not — with the whole process state untouched (the
    null check at line 297 precedes everything else).  A zero-length
    message returns `E_INVALIDARG` whenever the infrastructure is
    initialized and `E_HC_NOT_INITIALISED` whenever it is not.  In every
    such case the rejection is synchronous, no record is enqueued and no
    transport submission is triggered — every session's queue, in-flight
    list and completion list are unchanged. -/
theorem sendMessage_null_or_empty_guard (st : ProcessState) (idx : Nat) :
    (Internal_HCWebSocketSendMessageAsync st idx none).2 = E_INVALIDARG ∧
    (Internal_HCWebSocketSendMessageAsync st idx none).1 = st ∧
    (st.initialized = true →
      (Internal_HCWebSocketSendMessageAsync st idx (some [])).2
        = E_INVALIDARG) ∧
    (st.initialized = false →
      (Internal_HCWebSocketSendMessageAsync st idx (some [])).2
        = E_HC_NOT_INITIALISED) ∧
    (Internal_HCWebSocketSendMessageAsync st idx (some [])).1.sessions
      = st.sessions := by
  refine ⟨rfl, rfl, ?_, ?_, ?_⟩
  · intro hinit
    cases hgs : st.sessions[idx]? with
    | none => simp [Internal_HCWebSocketSendMessageAsync, hinit, hgs]
    | some sess => simp [Internal_HCWebSocketSendMessageAsync, hinit, hgs]
  · intro hinit
    simp [Internal_HCWebSocketSendMessageAsync, hinit]
  · cases hinit : st.initialized with
    | false => simp [Internal_HCWebSocketSendMessageAsync, hinit]
    | true =>
      cases hgs : st.sessions[idx]? with
      | none => simp [Internal_HCWebSocketSendMessageAsync, hinit, hgs]
      | some sess => simp [Internal_HCWebSocketSendMessageAsync, hinit, hgs]

/-- C3 witness: the amended guard exercised on both initialization
    branches — a zero-length payload on an initialized process yields
    `E_INVALIDARG` and on an uninitialized one `E_HC_NOT_INITIALISED`,
    while a null message yields `E_INVALIDARG` in both. -/
theorem sendMessage_null_or_empty_guard_witness :
    (Internal_HCWebSocketSendMessageAsync initialProcessState 0 (some [])).2
        = E_INVALIDARG ∧
    (Internal_HCWebSocketSendMessageAsync ⟨false, 0, [⟨[], [], []⟩]⟩ 0
        (some [])).2 = E_HC_NOT_INITIALISED ∧
    (Internal_HCWebSocketSendMessageAsync initialProcessState 0 none).2
        = E_INVALIDARG ∧
    (Internal_HCWebSocketSendMessageAsync ⟨false, 0, [⟨[], [], []⟩]⟩ 0
        none).2 = E_INVALIDARG :=
  ⟨(sendMessage_null_or_empty_guard initialProcessState 0).2.2.1 rfl,
   (sendMessage_null_or_empty_guard ⟨false, 0, [⟨[], [], []⟩]⟩ 0).2.2.2.1 rfl,
   (sendMessage_null_or_empty_guard initialProcessState 0).1,
   (sendMessage_null_or_empty_guard ⟨false, 0, [⟨[], [], []⟩]⟩ 0).1⟩

/-- C10 counterexample.  The claim "every SendMessage call with a non-null
    payload consumes one identifier" is false as stated: when the process
    singleton is not initialized the call returns at lines 302-304, before
    the `++httpSingleton->m_lastId` at line 310, and the counter is
    unchanged (here it stays 5 although a non-null payload was passed). -/
theorem sendMessage_uninitialized_no_id_counterexample :
    (Internal_HCWebSocketSendMessageAsync ⟨false, 5, [⟨[], [], []⟩]⟩ 0
        (some ['x'])).1.lastId = 5 ∧
      (Internal_HCWebSocketSendMessageAsync ⟨false, 5, [⟨[], [], []⟩]⟩ 0
        (some ['x'])).2 = E_HC_NOT_INITIALISED := by
  decide

/-- C10 (amended).  On the initialized path, the process-wide identifier
    counter (the http singleton's `m_lastId`, shared by all sessions — the
    theorem holds for every session index) is incremented and the outgoing
    record allocated before the zero-length check: any call with a non-null
    payload consumes one identifier, including a zero-length call rejected
    with `E_INVALIDARG`, and the message accepted right after such a
    rejected call is numbered `lastId + 2`, skipping the consumed value. -/
theorem sendMessage_id_consumption (st : ProcessState) (idx : Nat)
    (m : List Char)
    (hinit : st.initialized = true) (hidx : idx < st.sessions.length) :
    (Internal_HCWebSocketSendMessageAsync st idx (some m)).1.lastId
        = st.lastId + 1 ∧
    (Internal_HCWebSocketSendMessageAsync st idx (some [])).1.lastId
        = st.lastId + 1 ∧
    (Internal_HCWebSocketSendMessageAsync st idx (some [])).2 = E_INVALIDARG ∧
    (Internal_HCWebSocketSendMessageAsync
        (Internal_HCWebSocketSendMessageAsync st idx (some [])).1 idx
        (some m)).1.lastId = st.lastId + 2 := by
  have hgs : st.sessions[idx]? = some st.sessions[idx] :=
    List.getElem?_eq_getElem hidx
  have h2 := sendMessage_empty_state st idx _ hinit hgs
  refine ⟨sendMessage_lastId_increment st idx m _ hinit hgs, ?_, h2.2, ?_⟩
  · rw [h2.1]
  · rw [h2.1]
    exact sendMessage_lastId_increment { st with lastId := st.lastId + 1 } idx m
      _ hinit hgs

/-- C10 witness: identifier consumption at a concrete input (initialized
    process, session 0, payload "x"). -/
theorem sendMessage_id_consumption_witness :
    (Internal_HCWebSocketSendMessageAsync initialProcessState 0
        (some ['x'])).1.lastId = initialProcessState.lastId + 1 ∧
    (Internal_HCWebSocketSendMessageAsync initialProcessState 0
        (some [])).1.lastId = initialProcessState.lastId + 1 ∧
    (Internal_HCWebSocketSendMessageAsync initialProcessState 0 (some [])).2
        = E_INVALIDARG ∧
    (Internal_HCWebSocketSendMessageAsync
        (Internal_HCWebSocketSendMessageAsync initialProcessState 0 (some [])).1
        0 (some ['x'])).1.lastId = initialProcessState.lastId + 2 :=
  sendMessage_id_consumption initialProcessState 0 ['x'] rfl (by decide)

/-- C4 counterexample.  The claim "Disconnect on a session that has no
    active transport fails with an invalid-argument condition" is false:
    for a session whose `MessageWebSocket` is null the routine returns
    `E_UNEXPECTED` (line 506), which is not `E_INVALIDARG`. -/
theorem disconnect_missing_transport_counterexample :
    Internal_HCWebSocketDisconnect (some ⟨true, false⟩) 1000
        = (E_UNEXPECTED, none) ∧
      E_UNEXPECTED ≠ E_INVALIDARG := by
  decide

/-- C4 (amended).  A null session handle fails with `E_INVALIDARG`; a
    session whose implementation or underlying transport object is missing
    fails with `E_UNEXPECTED` (an unexpected-error condition, not
    invalid-argument) and no close is requested; a session with an active
    transport has `Close` invoked with the given status code (truncated to
    16 bits, the identity for every `HCWebSocketCloseStatus` value) and
    returns success. -/
theorem disconnect_error_classification (t : DisconnectTarget) (c : Nat)
    (hc : c < 65536) :
    Internal_HCWebSocketDisconnect none c = (E_INVALIDARG, none) ∧
    (t.implValid = false ∨ t.transportPresent = false →
      Internal_HCWebSocketDisconnect (some t) c = (E_UNEXPECTED, none)) ∧
    (t.implValid = true → t.transportPresent = true →
      Internal_HCWebSocketDisconnect (some t) c = (S_OK, some c)) := by
  refine ⟨rfl, ?_, ?_⟩
  · rintro (h | h) <;> simp [Internal_HCWebSocketDisconnect, h]
  · intro h1 h2
    simp [Internal_HCWebSocketDisconnect, h1, h2, Nat.mod_eq_of_lt hc]

/-- C4 witness: disconnect classification at a concrete input (valid
    transport, close status 1000). -/
theorem disconnect_error_classification_witness :
    Internal_HCWebSocketDisconnect none 1000 = (E_INVALIDARG, none) ∧
    ((⟨true, true⟩ : DisconnectTarget).implValid = false ∨
        (⟨true, true⟩ : DisconnectTarget).transportPresent = false →
      Internal_HCWebSocketDisconnect (some ⟨true, true⟩) 1000
        = (E_UNEXPECTED, none)) ∧
    ((⟨true, true⟩ : DisconnectTarget).implValid = true →
      (⟨true, true⟩ : DisconnectTarget).transportPresent = true →
      Internal_HCWebSocketDisconnect (some ⟨true, true⟩) 1000
        = (S_OK, some 1000)) :=
  disconnect_error_classification ⟨true, true⟩ 1000 (by decide)

/-- C5.  Sub-protocol parsing: the source's getline-based tokenizer with
    trimming and empty-entry filtering computes exactly the spec-level
    description (split on commas, trim surrounding whitespace, discard
    entries that become empty); registration appends the surviving entries
    to the transport's supported-protocol list in parse order; and the
    input "chat, superchat" yields exactly ["chat", "superchat"]. -/
theorem subprotocol_parsing (cs : List Char) :
    parse_subprotocols cs = spec_parse_subprotocols cs ∧
    supportedProtocolAppends cs = parse_subprotocols cs ∧
    parse_subprotocols "chat, superchat".toList
      = ["chat".toList, "superchat".toList] := by
  refine ⟨parse_subprotocols_eq_spec cs, ?_, by decide⟩
  unfold supportedProtocolAppends
  rw [foldl_append_eq]
  simp

/-- C6.  Reserved-header filtering in `WebsocketConnectDoWork`: the
    `SetRequestHeader` calls are exactly the session's headers, in order
    and with name and value unchanged, minus those whose name equals
    (case-insensitively) `Sec-WebSocket-Protocol`; in particular no issued
    call carries the reserved name. -/
theorem reserved_header_filtering (headers : List HttpHeader) :
    connectSetRequestHeaderCalls headers
        = headers.filter
            (fun h => !(str_icmp h.name secWebSocketProtocolHeader)) ∧
      (connectSetRequestHeaderCalls headers).all
        (fun h => !(str_icmp h.name secWebSocketProtocolHeader)) = true := by
  have h1 := foldl_append_if_filter
    (fun h => !(str_icmp h.name secWebSocketProtocolHeader)) headers []
  constructor
  · unfold connectSetRequestHeaderCalls
    rw [h1, List.nil_append]
  · unfold connectSetRequestHeaderCalls
    rw [h1, List.nil_append, List.all_eq_true]
    intro h hmem
    exact (List.mem_filter.mp hmem).2

/-- C7.  Completion-result uniformity: for both connect and send result
    retrieval, the returned record carries the session reference and the
    platform code verbatim; the generic status is the same pure function of
    the platform code in both paths — `E_FAIL` exactly when `FAILED` holds
    of the platform code and `S_OK` otherwise — with no independent
    failure state. -/
theorem completion_result_uniformity (ws r : Nat) :
    (WebsocketConnectGetResult ws r).websocket = ws ∧
    (WebsocketConnectGetResult ws r).platformErrorCode = r ∧
    (WebsockSendMessageGetResult ws r).websocket = ws ∧
    (WebsockSendMessageGetResult ws r).platformErrorCode = r ∧
    (WebsocketConnectGetResult ws r).errorCode
        = (WebsockSendMessageGetResult ws r).errorCode ∧
    ((WebsocketConnectGetResult ws r).errorCode = E_FAIL ↔ FAILED r = true) ∧
    ((WebsocketConnectGetResult ws r).errorCode = S_OK ↔ FAILED r = false) := by
  refine ⟨rfl, rfl, rfl, rfl, rfl, ?_, ?_⟩ <;>
    cases hF : FAILED r <;>
      simp [WebsocketConnectGetResult, hF, E_FAIL, S_OK]

/-- C8.  Connect completion handling: when the transport's open operation
    completes with an error status the stored outcome is the failing
    `E_FAIL`; with any non-error status and a successfully acquired writer
    the stored outcome is success; an exception raised while acquiring the
    writer is caught and converted into a stored failure outcome — the
    `hresult_error`'s own (failing) code, or the generic `E_FAIL` for any
    other exception — rather than propagated (the handler is a total
    function of status and acquisition outcome). -/
theorem connect_completion_handling (s t : AsyncStatus) (c : Nat)
    (ht : t ≠ AsyncStatus.error) (hc : FAILED c = true) :
    connectCompletedHandler AsyncStatus.error WriterAcq.ok = E_FAIL ∧
    FAILED (connectCompletedHandler AsyncStatus.error WriterAcq.ok) = true ∧
    connectCompletedHandler t WriterAcq.ok = S_OK ∧
    connectCompletedHandler s (WriterAcq.hresultError c) = c ∧
    FAILED (connectCompletedHandler s (WriterAcq.hresultError c)) = true ∧
    connectCompletedHandler s WriterAcq.otherError = E_FAIL ∧
    FAILED (connectCompletedHandler s WriterAcq.otherError) = true := by
  refine ⟨rfl, by decide, ?_, rfl, hc, rfl, show FAILED E_FAIL = true by decide⟩
  simp [connectCompletedHandler, ht]

/-- C8 witness: the completion handler at concrete inputs (successful
    status with acquired writer; exception code `E_FAIL`). -/
theorem connect_completion_handling_witness :
    connectCompletedHandler AsyncStatus.error WriterAcq.ok = E_FAIL ∧
    FAILED (connectCompletedHandler AsyncStatus.error WriterAcq.ok) = true ∧
    connectCompletedHandler AsyncStatus.completed WriterAcq.ok = S_OK ∧
    connectCompletedHandler AsyncStatus.completed
        (WriterAcq.hresultError E_FAIL) = E_FAIL ∧
    FAILED (connectCompletedHandler AsyncStatus.completed
        (WriterAcq.hresultError E_FAIL)) = true ∧
    connectCompletedHandler AsyncStatus.completed WriterAcq.otherError
        = E_FAIL ∧
    FAILED (connectCompletedHandler AsyncStatus.completed
        WriterAcq.otherError) = true :=
  connect_completion_handling AsyncStatus.completed AsyncStatus.completed
    E_FAIL (by decide) (by decide)

/-- C9.  Receive-path drop semantics: an exception while reading is
    swallowed and no callback fires; a message-received event with zero
    available bytes never invokes the message callback; and when bytes are
    available and a callback is registered, it is invoked exactly once with
    exactly that payload. -/
theorem receive_drop_semantics (bs : List Nat) (cb : Bool) (hbs : bs ≠ []) :
    ReceiveContext_OnReceive ReceiveEvent.failure cb = none ∧
    ReceiveContext_OnReceive (ReceiveEvent.available []) cb = none ∧
    ReceiveContext_OnReceive (ReceiveEvent.available bs) true = some bs := by
  refine ⟨rfl, rfl, ?_⟩
  have hlen : 0 < bs.length := List.length_pos.mpr hbs
  simp [ReceiveContext_OnReceive, hlen]

/-- C9 witness: the receive path at a concrete one-byte payload. -/
theorem receive_drop_semantics_witness :
    ReceiveContext_OnReceive ReceiveEvent.failure true = none ∧
    ReceiveContext_OnReceive (ReceiveEvent.available []) true = none ∧
    ReceiveContext_OnReceive (ReceiveEvent.available [65]) true = some [65] :=
  receive_drop_semantics [65] true (by decide)
